import Mathlib

/-!
Shallow embedding of the dnstwister resolution cascade
(`dnstwister/tools/__init__.py`) and the noisy-domain sliding-window
updater (`dnstwister/tools/noisy_domains.py`), together with theorems
checking the specification's claims about them.

Modelling conventions:
* Python's `(value, is_error)` result pairs become `Option String × Bool`:
  `(ip, False) ↦ (some ip, false)`, `(False, False) ↦ (none, false)`,
  `(False, True) ↦ (none, true)`.
* Network backends (`RESOLVER.query`, `socket.gethostbyname`,
  `requests.get(...).json()`, `socket.inet_aton`) and the external domain
  validator (`dnstwist.validate_domain`) are inputs of the model: an
  environment record supplies, per domain, the observable result each
  external call would produce (`none` / `.failure` standing for any raised
  exception).  The cascade additionally returns the list of backends it
  actually invoked, so "backend not invoked" claims are statable.
* `datetime` values are integers counting microseconds; `timedelta.days`
  is floor division by the microseconds in a day, exactly as Python
  normalises timedeltas.  The float expression
  `1 - ((WINDOW_SIZE / 2.0) / window_age.days)` and the product
  `deltas * delta_factor` are embedded as IEEE-754 binary64 arithmetic:
  every operation and int-to-float conversion rounds its exact rational
  result to 53 bits, to nearest, ties to even (`round64` below), exactly
  as CPython floats behave; Python's `int()` is truncation toward zero.
-/

set_option maxRecDepth 100000

namespace DnsTwister

/-- Python result pair `(value, is_error)` as returned by `resolve` and
`google_resolve`: the first component is the resolved IP (or `False ↦ none`),
the second the error flag. -/
abbrev ResolveResult := Option String × Bool

/-- `(ip_addr, False)`: successful resolution (spec's `Resolved(ip)`). -/
def Resolved (ip_addr : String) : ResolveResult := (some ip_addr, false)

/-- `(False, False)`: clean failure to resolve (spec's `NotResolved`). -/
def NotResolved : ResolveResult := (none, false)

/-- `(False, True)`: error while attempting to resolve
(spec's `ResolutionError`). -/
def ResolutionError : ResolveResult := (none, true)

/-- One entry of the `"Answer"` array of the Google DNS-over-HTTPS JSON
response: `{type: int, data: string}`. -/
structure GAnswer where
  type : Int
  data : String
deriving DecidableEq, Repr

/-- Observable outcome of `requests.get(GOOGLEDNS.format(domain)).json()`:
either some exception was raised (`failure`: network error, non-JSON body,
missing key, ...) or a JSON object with a `Status` code and an optional
`Answer` array was obtained. -/
inductive DohResponse where
  | failure : DohResponse
  | ok (Status : Int) (Answer : Option (List GAnswer)) : DohResponse
deriving DecidableEq, Repr

/-- `GOOGLEDNS_SUCCESS = 0` -/
def GOOGLEDNS_SUCCESS : Int := 0

/-- `GOOGLEDNS_A_RECORD = 1` -/
def GOOGLEDNS_A_RECORD : Int := 1

/-- Environment of external calls the cascade makes, per domain:
* `validate_domain d = true` iff `dnstwist.validate_domain(d)` is not `None`;
* `resolver_query d = some ip` iff
  `str(sorted(RESOLVER.query(d, 'A'))[0].address)` evaluates to `ip`
  without raising (`none` = any exception, e.g. NXDOMAIN or timeout);
* `gethostbyname d = some ip` iff `socket.gethostbyname(d)` returns `ip`
  (`none` = any exception);
* `doh_response d` is the outcome of the HTTP GET + JSON parse;
* `inet_aton s = true` iff `socket.inet_aton(s)` does not raise. -/
structure Env where
  validate_domain : String → Bool
  resolver_query : String → Option String
  gethostbyname : String → Option String
  doh_response : String → DohResponse
  inet_aton : String → Bool

/-- `is_valid_ip(ip_string)`: true iff `socket.inet_aton(ip_string)` does
not raise `socket.error`. -/
def is_valid_ip (env : Env) (ip_string : String) : Bool :=
  env.inet_aton ip_string

/-- `google_resolve(domain)`: query Google's public DNS-over-HTTPS resolver.
Returns `(ip, False)` when the JSON response has `Status == 0`, an `Answer`
array whose first entry has `type == 1` and a `data` string accepted by
`is_valid_ip`; returns `(False, False)` in every other case, including when
the request, the JSON parse or the `Answer[0]` indexing raises (the `except`
branch logs and returns `(False, False)` as well). -/
def google_resolve (env : Env) (domain : String) : ResolveResult :=
  match env.doh_response domain with
  | DohResponse.failure => (none, false)
  | DohResponse.ok status answer =>
    if status = GOOGLEDNS_SUCCESS then
      match answer with
      | some (ans :: _) =>
        if ans.type = GOOGLEDNS_A_RECORD then
          if is_valid_ip env ans.data then (some ans.data, false)
          else (none, false)
        else (none, false)
      | some [] => (none, false)
      | none => (none, false)
    else (none, false)

/-- The backends the cascade can invoke, in source order. -/
inductive BackendCall where
  | protocol : BackendCall
  | system : BackendCall
  | doh : BackendCall
deriving DecidableEq, Repr

/-- `resolve(domain)` (the body under the `@cache.memoize(3600)` decorator):
validate, then try the `'A'`-record protocol query, then
`socket.gethostbyname` (discarding the `127.0.0.1` quirk), then
`google_resolve`.  Also returns the list of backends invoked. -/
def resolve (env : Env) (domain : String) : ResolveResult × List BackendCall :=
  if env.validate_domain domain = false then ((none, true), [])
  else
    match env.resolver_query domain with
    | some ip_addr => ((some ip_addr, false), [BackendCall.protocol])
    | none =>
      match env.gethostbyname domain with
      | some ip_addr =>
        if ip_addr ≠ "127.0.0.1" then
          ((some ip_addr, false), [BackendCall.protocol, BackendCall.system])
        else
          (google_resolve env domain,
            [BackendCall.protocol, BackendCall.system, BackendCall.doh])
      | none =>
        (google_resolve env domain,
          [BackendCall.protocol, BackendCall.system, BackendCall.doh])

/-! ### Resolution cache

`dnstwister/cache.py` is not under `src/`; only the `@cache.memoize(3600)`
decoration of `resolve` is.  The cache behaviour below is modelled from the
spec (§4.3 Resolution Cache). -/

/-- Python's `str.lower()` restricted to the observable character mapping:
lowercase every character of the string. -/
def py_lower (s : String) : String :=
  String.mk (s.data.map Char.toLower)

/-- A cache entry: key, stored outcome, write time (seconds). -/
abbrev CacheState := List (String × ResolveResult × Int)

/-- Modelled from the spec: lookup of a live cache entry.  `cache.py` is not
under `src/`; per §4.3 an entry "expires after a fixed TTL (1 hour) measured
from write time", so a key is live iff it was written less than 3600 seconds
ago. -/
def cache_get (st : CacheState) (key : String) (now : Int) :
    Option ResolveResult :=
  match st.find? (fun e => e.1 = key) with
  | some (_, outcome, written) =>
    if now - written < 3600 then some outcome else none
  | none => none

/-- Modelled from the spec: `resolve_cached(domain)`, i.e. `resolve` as seen
through `@cache.memoize(3600)` (`cache.py` is not under `src/`).  Per §4.3:
cache key = the lowercase, as-given domain string; on a live key return the
stored outcome without invoking any backend; on a fresh or expired key invoke
the cascade, store the outcome with a new 1-hour expiry and return it.
Returns (outcome, new cache state, backends invoked). -/
def resolve_cached (env : Env) (st : CacheState) (domain : String)
    (now : Int) : ResolveResult × CacheState × List BackendCall :=
  let key := py_lower domain
  match cache_get st key now with
  | some outcome => (outcome, st, [])
  | none =>
    let r := resolve env domain
    (r.1, (key, r.1, now) :: st, r.2)

end DnsTwister

namespace NoisyDomains

/-- Microseconds in one day; `datetime.timedelta` arithmetic is exact at
microsecond resolution. -/
def day : Int := 86400000000

/-- `WINDOW_SIZE = 30` (days). -/
def WINDOW_SIZE : Int := 30

/-- `THRESHOLD = 50` (percent). -/
def THRESHOLD : Int := 50

/-- The record built by `initialise_record`/`update`: timestamps are
microseconds since an arbitrary epoch, `deltas` a Python integer. -/
structure NoiseRecord where
  domain : String
  window_last_checked : Int
  window_start : Int
  deltas : Int
deriving DecidableEq, Repr

/-- Python's `int()` applied to a real number: truncation toward zero
(`Int` division of the reduced numerator by the positive denominator). -/
def int_trunc (q : ℚ) : Int :=
  q.num / (q.den : Int)

/-! #### IEEE-754 binary64 arithmetic

CPython floats are IEEE-754 binary64 values and every arithmetic operation
rounds its exact result to 53 bits of precision, to nearest, ties to even.
The shuffle branch of `update` evaluates the float expression
`1 - ((WINDOW_SIZE / 2.0) / window_age.days)` and the product
`deltas * delta_factor`, so its results differ from exact rational
arithmetic in the last bit.  `round64` is that rounding, written on exact
rationals: split `|q|` into binade exponent `e` (largest with `2^e ≤ |q|`,
clamped below at the minimum normal exponent −1022 so subnormals round on
the fixed `2^-1074` grid), and round `|q|` half-to-even onto the grid of
multiples of `2^(e-52)`.  Exponents above the binary64 overflow threshold
are not clamped: there CPython raises `OverflowError` instead of returning
a float, so no returned value exists to model. -/

/-- Fuelled `⌊log₂ n⌋` for `n ≥ 1` (0 for `n = 0`); any `fuel ≥ n` is
enough. -/
def log2floor : Nat → Nat → Nat
  | 0, _ => 0
  | fuel + 1, n => if 2 ≤ n then log2floor fuel (n / 2) + 1 else 0

/-- Fuelled search for the smallest `k` with `n * 2^k ≥ d` (used for the
binade exponent of rationals below 1); any `fuel ≥ d` is enough. -/
def ninv_exp : Nat → Nat → Nat → Nat
  | 0, _, _ => 0
  | fuel + 1, n, d => if d ≤ n then 0 else ninv_exp fuel (2 * n) d + 1

/-- Round a rational to the nearest integer, ties to even. -/
def rhe (q : ℚ) : Int :=
  let f := Int.fdiv q.num (q.den : Int)
  let r2 := 2 * (q.num - f * (q.den : Int))
  if r2 < (q.den : Int) then f
  else if r2 > (q.den : Int) then f + 1
  else if f % 2 = 0 then f else f + 1

/-- Round an exact rational to the nearest IEEE-754 binary64 value, ties to
even (see the section comment above). -/
def round64 (q : ℚ) : ℚ :=
  if q = 0 then 0
  else
    let n := q.num.natAbs
    let d := q.den
    let e : Int := if d ≤ n then (log2floor n (n / d) : Int)
      else -(ninv_exp d n d : Int)
    let u : Int := max e (-1022) - 52
    let m := rhe (((n : ℚ) / (d : ℚ)) * (2 : ℚ) ^ (-u))
    (if q < 0 then -(m : ℚ) else (m : ℚ)) * (2 : ℚ) ^ u

/-- CPython's int-to-float conversion (`PyLong_AsDouble`): round the
integer to the nearest double, ties to even. -/
def fp_ofInt (i : Int) : ℚ := round64 (i : ℚ)

/-- binary64 division: round the exact quotient. -/
def fp_div (a b : ℚ) : ℚ := round64 (a / b)

/-- binary64 subtraction: round the exact difference. -/
def fp_sub (a b : ℚ) : ℚ := round64 (a - b)

/-- binary64 multiplication: round the exact product. -/
def fp_mul (a b : ℚ) : ℚ := round64 (a * b)

/-- `window_age.days` for a `timedelta` of `window_age` microseconds:
Python normalises timedeltas with floor division, so `.days` is the floor
of the age divided by one day. -/
def window_age_in_days (window_age : Int) : Int :=
  window_age.fdiv day

/-- `initialise_record(domain, now)`: fresh record with `deltas = 0` and
both timestamps set to `now`. -/
def initialise_record (domain : String) (now : Int) : NoiseRecord :=
  { domain := domain
    window_last_checked := now
    window_start := now
    deltas := 0 }

/-- `update(domain_stats, now)`: refresh `window_last_checked`; if the
window age exceeds `WINDOW_SIZE` days (exact microsecond timedelta
comparison), shuffle `window_start` forward by `timedelta(days=15.0)`
(exact, since 15 days is a whole number of microseconds) and set `deltas`
to `int(deltas * delta_factor)` with
`delta_factor = 1 - ((WINDOW_SIZE / 2.0) / window_age.days)` evaluated in
binary64 float arithmetic exactly as CPython does: `WINDOW_SIZE / 2.0` is
the exact float 15.0, `window_age.days` and `deltas` are converted
int-to-float, and each division, subtraction and multiplication rounds to
nearest, ties to even. -/
def update (domain_stats : NoiseRecord) (now : Int) : NoiseRecord :=
  let refreshed := { domain_stats with window_last_checked := now }
  let window_start := domain_stats.window_start
  let window_age := now - window_start
  let breakpoint := WINDOW_SIZE * day
  let move_size := (WINDOW_SIZE / 2 : Int) * day
  if window_age ≤ breakpoint then refreshed
  else
    let delta_factor : ℚ :=
      fp_sub 1 (fp_div (fp_div (fp_ofInt WINDOW_SIZE) 2)
        (fp_ofInt (window_age_in_days window_age)))
    { refreshed with
      window_start := window_start + move_size
      deltas := int_trunc (fp_mul (fp_ofInt domain_stats.deltas)
        delta_factor) }

end NoisyDomains

namespace NoisyDomains

/-! ### Theorems about the noise window updater -/

/-- C4: when `now - window_start ≤ 30` days (boundary inclusive), `update`
only refreshes `window_last_checked`; `window_start`, `deltas` and `domain`
are unchanged. -/
theorem update_within_window (r : NoiseRecord) (now : Int)
    (h : now - r.window_start ≤ WINDOW_SIZE * day) :
    (update r now).window_last_checked = now ∧
    (update r now).window_start = r.window_start ∧
    (update r now).deltas = r.deltas ∧
    (update r now).domain = r.domain := by
  simp [update, h]

/-- Witness for `update_within_window` at record
`⟨"a.com", day 0, day 0, 7⟩` and `now` = day 30 (the inclusive boundary). -/
theorem update_within_window_witness :
    (update ⟨"a.com", 0, 0, 7⟩ (30 * day)).window_last_checked = 30 * day ∧
    (update ⟨"a.com", 0, 0, 7⟩ (30 * day)).window_start = 0 ∧
    (update ⟨"a.com", 0, 0, 7⟩ (30 * day)).deltas = 7 ∧
    (update ⟨"a.com", 0, 0, 7⟩ (30 * day)).domain = "a.com" :=
  update_within_window ⟨"a.com", 0, 0, 7⟩ (30 * day) (by decide)

/-- Counterexample to C3 as stated: at `window_start` = day 0,
`deltas = 55`, `now` = day 33, the program's float chain gives
`int(55 * 0.5454545454545454) = int(29.999999999999996) = 29`, while the
claim's formula `int(r.deltas * (1 - 15 / window_age_in_days))` read in
exact arithmetic gives `int(55 * 18/33) = 30`. -/
theorem exact_rescale_counterexample :
    (update ⟨"a.com", 0, 0, 55⟩ (33 * day)).deltas = 29 ∧
    int_trunc ((55 : ℚ) *
      (1 - 15 / (window_age_in_days (33 * day - 0) : ℚ))) = 30 := by
  constructor
  · with_unfolding_all decide
  · with_unfolding_all decide

/-- C3 amended: when `now - window_start` strictly exceeds 30 days,
`update` advances `window_start` by 15 days and sets `deltas` to
`int(deltas * (1 - 15 / window_age_in_days))` with the division,
subtraction, multiplication and int-to-float conversions carried out in
IEEE-754 double precision, as Python evaluates the expression. -/
theorem update_shuffle (r : NoiseRecord) (now : Int)
    (h : now - r.window_start > WINDOW_SIZE * day) :
    (update r now).window_start = r.window_start + 15 * day ∧
    (update r now).deltas =
      int_trunc (fp_mul (fp_ofInt r.deltas)
        (fp_sub 1 (fp_div 15
          (fp_ofInt (window_age_in_days (now - r.window_start)))))) := by
  have h15 : fp_div (fp_ofInt WINDOW_SIZE) 2 = (15 : ℚ) := by
    with_unfolding_all decide
  rw [update]
  simp only [not_le.mpr h, if_false]
  constructor
  · norm_num [WINDOW_SIZE]
  · simp [h15]

/-- Witness for `update_shuffle` at the spec's concrete instance:
`window_start` = day 0, `deltas = 100`, `now` = day 60; the factor
`1 - 15/60.0 = 0.75` and the product `100 * 0.75 = 75.0` are exact in
binary64, so the result has `window_start` = day 15 and `deltas = 75`. -/
theorem update_shuffle_witness :
    (update ⟨"a.com", 0, 0, 100⟩ (60 * day)).window_start = 15 * day ∧
    (update ⟨"a.com", 0, 0, 100⟩ (60 * day)).deltas = 75 := by
  have h := update_shuffle ⟨"a.com", 0, 0, 100⟩ (60 * day) (by decide)
  exact ⟨h.1.trans (by decide), h.2.trans (by with_unfolding_all decide)⟩

/-- C9: the shuffle branch of `update` is entered only when the window age
strictly exceeds 30 days, and there the divisor `window_age_in_days` is
at least `WINDOW_SIZE` (30) and in particular nonzero. -/
theorem shuffle_divisor_safe (r : NoiseRecord) (now : Int)
    (h : now - r.window_start > WINDOW_SIZE * day) :
    window_age_in_days (now - r.window_start) ≥ WINDOW_SIZE ∧
    window_age_in_days (now - r.window_start) ≠ 0 := by
  have hday : (0 : Int) < day := by decide
  have hfd : window_age_in_days (now - r.window_start) =
      (now - r.window_start) / day := by
    unfold window_age_in_days
    exact Int.fdiv_eq_ediv _ (le_of_lt hday)
  have hge : WINDOW_SIZE ≤ (now - r.window_start) / day := by
    rw [Int.le_ediv_iff_mul_le hday]
    exact le_of_lt h
  refine ⟨by rw [hfd]; exact hge, ?_⟩
  rw [hfd]
  intro h0
  rw [h0] at hge
  exact absurd hge (by decide)

/-- Witness for `shuffle_divisor_safe` at `window_start` = day 0,
`now` = day 31. -/
theorem shuffle_divisor_safe_witness :
    window_age_in_days (31 * day - 0) ≥ WINDOW_SIZE ∧
    window_age_in_days (31 * day - 0) ≠ 0 :=
  shuffle_divisor_safe ⟨"a.com", 0, 0, 0⟩ (31 * day) (by decide)

end NoisyDomains

namespace NoisyDomains

/-- Counterexample to C10 as stated: the record `⟨"x", 100, 100, 0⟩`
satisfies `window_last_checked ≥ window_start`, but updating it at
`now = 0` (a time before `window_start`) yields
`window_last_checked = 0 < 100 = window_start`. -/
theorem invariant_counterexample :
    (⟨"x", 100, 100, 0⟩ : NoiseRecord).window_last_checked ≥
      (⟨"x", 100, 100, 0⟩ : NoiseRecord).window_start ∧
    ¬ ((update ⟨"x", 100, 100, 0⟩ 0).window_last_checked ≥
      (update ⟨"x", 100, 100, 0⟩ 0).window_start) := by
  constructor
  · exact le_refl _
  · decide

/-- C10 amended: records from `initialise_record` satisfy
`window_last_checked ≥ window_start`, and `update` preserves the invariant
for every `now` that is not earlier than the record's `window_start`. -/
theorem invariant_preserved (domain : String) (t : Int) (r : NoiseRecord)
    (now : Int) (hr : r.window_last_checked ≥ r.window_start)
    (hnow : now ≥ r.window_start) :
    (initialise_record domain t).window_last_checked ≥
      (initialise_record domain t).window_start ∧
    (update r now).window_last_checked ≥ (update r now).window_start := by
  refine ⟨le_refl _, ?_⟩
  rw [update]
  by_cases h : now - r.window_start ≤ WINDOW_SIZE * day
  · simpa [h] using hnow
  · have h2 : now - r.window_start > WINDOW_SIZE * day := not_le.mp h
    simp only [h, if_false]
    simp only [ge_iff_le]
    have : r.window_start + (WINDOW_SIZE / 2 : Int) * day ≤ now := by
      norm_num [WINDOW_SIZE, day] at h2 ⊢
      omega
    simpa using this

/-- Witness for `invariant_preserved` at the record
`⟨"a.com", day 0, day 0, 5⟩` and `now` = day 40. -/
theorem invariant_preserved_witness :
    (initialise_record "b.com" 17).window_last_checked ≥
      (initialise_record "b.com" 17).window_start ∧
    (update ⟨"a.com", 0, 0, 5⟩ (40 * day)).window_last_checked ≥
      (update ⟨"a.com", 0, 0, 5⟩ (40 * day)).window_start :=
  invariant_preserved "b.com" 17 ⟨"a.com", 0, 0, 5⟩ (40 * day)
    (by decide) (by decide)

end NoisyDomains

namespace DnsTwister

/-! ### Theorems about the resolution cascade -/

/-- Case analysis of `google_resolve`: either the response is a status-0
JSON object whose first answer is a valid type-1 record (and that answer's
address is returned with no error flag), or the result is `(False, False)`. -/
theorem google_resolve_cases (env : Env) (domain : String) :
    (∃ ans rest,
      env.doh_response domain =
        DohResponse.ok GOOGLEDNS_SUCCESS (some (ans :: rest)) ∧
      ans.type = GOOGLEDNS_A_RECORD ∧ is_valid_ip env ans.data = true ∧
      google_resolve env domain = (some ans.data, false)) ∨
    google_resolve env domain = (none, false) := by
  rcases hdoh : env.doh_response domain with _ | ⟨status, answer⟩
  · right; simp [google_resolve, hdoh]
  · by_cases hs : status = GOOGLEDNS_SUCCESS
    · subst hs
      rcases answer with _ | ⟨_ | ⟨ans, rest⟩⟩
      · right; simp [google_resolve, hdoh]
      · right; simp [google_resolve, hdoh]
      · by_cases ht : ans.type = GOOGLEDNS_A_RECORD
        · by_cases hv : is_valid_ip env ans.data
          · left
            refine ⟨ans, rest, ?_, ht, hv,
              by simp [google_resolve, hdoh, ht, hv]⟩
            rfl
          · right
            simp only [Bool.not_eq_true] at hv
            simp [google_resolve, hdoh, ht, hv]
        · right; simp [google_resolve, hdoh, ht]
    · right; simp [google_resolve, hdoh, hs]

/-- When validation succeeds, the cascade's outcome is `NotResolved` or
`Resolved ip` for some `ip` — never the error pair. -/
theorem resolve_no_error_when_valid (env : Env) (domain : String)
    (hval : env.validate_domain domain = true) :
    (resolve env domain).1 = NotResolved ∨
    ∃ ip, (resolve env domain).1 = Resolved ip := by
  rcases hq : env.resolver_query domain with _ | ip
  · have hgoogle :
        google_resolve env domain = NotResolved ∨
        ∃ ip, google_resolve env domain = Resolved ip := by
      rcases google_resolve_cases env domain with ⟨ans, rest, _, _, _, hgg⟩ | hgg
      · exact Or.inr ⟨ans.data, hgg⟩
      · exact Or.inl hgg
    rcases hg : env.gethostbyname domain with _ | ip
    · rcases hgoogle with hgg | ⟨ip, hgg⟩
      · left; simp [resolve, hval, hq, hg, hgg]
      · right; exact ⟨ip, by simp [resolve, hval, hq, hg, hgg]⟩
    · by_cases hip : ip = "127.0.0.1"
      · subst hip
        rcases hgoogle with hgg | ⟨ip, hgg⟩
        · left; simp [resolve, hval, hq, hg, hgg]
        · right; exact ⟨ip, by simp [resolve, hval, hq, hg, hgg]⟩
      · right; exact ⟨ip, by simp [resolve, hval, hq, hg, hip, Resolved]⟩
  · right; exact ⟨ip, by simp [resolve, hval, hq, Resolved]⟩

/-- C1: `resolve` yields `ResolutionError` iff validation fails; an invalid
domain short-circuits with no backend invoked; a valid domain always yields
`NotResolved` or `Resolved`, whatever the backends do. -/
theorem resolve_validation (env : Env) (domain : String) :
    ((resolve env domain).1 = ResolutionError ↔
      env.validate_domain domain = false) ∧
    (env.validate_domain domain = false →
      resolve env domain = (ResolutionError, [])) ∧
    (env.validate_domain domain = true →
      ((resolve env domain).1 = NotResolved ∨
        ∃ ip, (resolve env domain).1 = Resolved ip)) := by
  refine ⟨⟨?_, ?_⟩, ?_, ?_⟩
  · intro h
    cases hx : env.validate_domain domain
    · rfl
    · rcases resolve_no_error_when_valid env domain hx with hnr | ⟨ip, hr⟩
      · rw [hnr] at h
        exact absurd h (by simp [NotResolved, ResolutionError])
      · rw [hr] at h
        exact absurd h (by simp [Resolved, ResolutionError])
  · intro h
    simp [resolve, h, ResolutionError]
  · intro h
    simp [resolve, h, ResolutionError]
  · exact resolve_no_error_when_valid env domain

end DnsTwister

namespace DnsTwister

/-- C2: for a valid domain the cascade stops at the first success: a
protocol-backend address is returned having invoked only the protocol
backend; failing that, a non-loopback system-lookup address is returned
having invoked only the protocol and system backends. -/
theorem cascade_priority (env : Env) (domain : String)
    (hval : env.validate_domain domain = true) :
    (∀ ip, env.resolver_query domain = some ip →
      resolve env domain = (Resolved ip, [BackendCall.protocol])) ∧
    (env.resolver_query domain = none →
      ∀ ip, env.gethostbyname domain = some ip → ip ≠ "127.0.0.1" →
        resolve env domain =
          (Resolved ip, [BackendCall.protocol, BackendCall.system])) := by
  constructor
  · intro ip hq
    simp [resolve, hval, hq, Resolved]
  · intro hq ip hg hip
    simp [resolve, hval, hq, hg, hip, Resolved]

/-- C7: a system lookup answering `127.0.0.1` for a valid domain is treated
as a non-result: the cascade proceeds to, and returns the outcome of, the
HTTP-DoH backend (so any `Resolved` answer comes from that backend, not the
system lookup). -/
theorem loopback_quirk (env : Env) (domain : String)
    (hval : env.validate_domain domain = true)
    (hq : env.resolver_query domain = none)
    (hg : env.gethostbyname domain = some "127.0.0.1") :
    resolve env domain =
      (google_resolve env domain,
        [BackendCall.protocol, BackendCall.system, BackendCall.doh]) := by
  simp [resolve, hval, hq, hg]

/-- C8: `google_resolve` yields `Resolved ip` exactly when the response is a
status-0 JSON object with a non-empty `Answer` array whose first entry has
type code 1 and whose `data` passes the IPv4 validity check, `ip` being that
`data` string; in every other case it yields `NotResolved`. -/
theorem google_resolve_resolved_iff (env : Env) (domain : String) :
    (∀ ip, google_resolve env domain = Resolved ip ↔
      ∃ ans rest,
        env.doh_response domain =
          DohResponse.ok GOOGLEDNS_SUCCESS (some (ans :: rest)) ∧
        ans.type = GOOGLEDNS_A_RECORD ∧ is_valid_ip env ans.data = true ∧
        ans.data = ip) ∧
    ((∃ ip, google_resolve env domain = Resolved ip) ∨
      google_resolve env domain = NotResolved) := by
  constructor
  · intro ip
    constructor
    · intro h
      rcases google_resolve_cases env domain with
        ⟨ans, rest, hdoh, ht, hv, hg⟩ | hg
      · rw [hg] at h
        refine ⟨ans, rest, hdoh, ht, hv, ?_⟩
        simpa [Resolved] using h
      · rw [hg] at h
        exact absurd h (by simp [Resolved])
    · rintro ⟨ans, rest, hdoh, ht, hv, hip⟩
      subst hip
      simp [google_resolve, hdoh, ht, hv, Resolved]
  · rcases google_resolve_cases env domain with
      ⟨ans, rest, _, _, _, hg⟩ | hg
    · exact Or.inl ⟨ans.data, hg⟩
    · exact Or.inr hg

/-! ### Concrete environments for the witnesses -/

/-- Environment whose validator accepts only `"example.com"` and whose
backends all fail. -/
def envAllFail : Env :=
  { validate_domain := fun d => d == "example.com"
    resolver_query := fun _ => none
    gethostbyname := fun _ => none
    doh_response := fun _ => DohResponse.failure
    inet_aton := fun _ => false }

/-- Environment where the protocol backend answers `1.2.3.4`. -/
def envProto : Env :=
  { validate_domain := fun _ => true
    resolver_query := fun _ => some "1.2.3.4"
    gethostbyname := fun _ => none
    doh_response := fun _ => DohResponse.failure
    inet_aton := fun _ => true }

/-- Environment where only the system lookup answers, with `5.6.7.8`. -/
def envSystem : Env :=
  { validate_domain := fun _ => true
    resolver_query := fun _ => none
    gethostbyname := fun _ => some "5.6.7.8"
    doh_response := fun _ => DohResponse.failure
    inet_aton := fun _ => true }

/-- Environment where the system lookup answers the loopback quirk value
and the DoH backend has a good type-1 answer `9.9.9.9`. -/
def envLoopback : Env :=
  { validate_domain := fun _ => true
    resolver_query := fun _ => none
    gethostbyname := fun _ => some "127.0.0.1"
    doh_response := fun _ =>
      DohResponse.ok GOOGLEDNS_SUCCESS (some [⟨GOOGLEDNS_A_RECORD, "9.9.9.9"⟩])
    inet_aton := fun _ => true }

/-- Witness for `resolve_validation`: in `envAllFail`, the invalid domain
`"bad domain"` short-circuits to the error pair with no backend invoked,
and the valid `"example.com"` still gets a non-error outcome although every
backend fails. -/
theorem resolve_validation_witness :
    resolve envAllFail "bad domain" = (ResolutionError, []) ∧
    ((resolve envAllFail "example.com").1 = NotResolved ∨
      ∃ ip, (resolve envAllFail "example.com").1 = Resolved ip) :=
  ⟨(resolve_validation envAllFail "bad domain").2.1 (by decide),
   (resolve_validation envAllFail "example.com").2.2 (by decide)⟩

/-- Witness for `cascade_priority`: in `envProto` only the protocol backend
is invoked; in `envSystem` the protocol and system backends are invoked and
the HTTP backend is not. -/
theorem cascade_priority_witness :
    resolve envProto "example.com" =
      (Resolved "1.2.3.4", [BackendCall.protocol]) ∧
    resolve envSystem "example.com" =
      (Resolved "5.6.7.8", [BackendCall.protocol, BackendCall.system]) :=
  ⟨(cascade_priority envProto "example.com" rfl).1 "1.2.3.4" rfl,
   (cascade_priority envSystem "example.com" rfl).2 rfl "5.6.7.8" rfl
     (by decide)⟩

/-- Witness for `loopback_quirk` in `envLoopback`: the cascade falls through
to the DoH backend (which here answers `9.9.9.9`). -/
theorem loopback_quirk_witness :
    resolve envLoopback "example.com" =
      (google_resolve envLoopback "example.com",
        [BackendCall.protocol, BackendCall.system, BackendCall.doh]) :=
  loopback_quirk envLoopback "example.com" rfl rfl rfl

/-- Environment where only the DoH backend has a good type-1 answer. -/
def envDoh : Env :=
  { validate_domain := fun _ => true
    resolver_query := fun _ => none
    gethostbyname := fun _ => none
    doh_response := fun _ =>
      DohResponse.ok GOOGLEDNS_SUCCESS (some [⟨GOOGLEDNS_A_RECORD, "9.9.9.9"⟩])
    inet_aton := fun _ => true }

/-- Witness for `google_resolve_resolved_iff`: in `envDoh` the DoH backend
resolves to `9.9.9.9`. -/
theorem google_resolve_resolved_iff_witness :
    google_resolve envDoh "example.com" = Resolved "9.9.9.9" :=
  ((google_resolve_resolved_iff envDoh "example.com").1 "9.9.9.9").2
    ⟨⟨GOOGLEDNS_A_RECORD, "9.9.9.9"⟩, [], rfl, rfl, rfl, rfl⟩

end DnsTwister

namespace DnsTwister

/-- C5: starting from an empty cache, the first `resolve_cached` call runs
the cascade exactly once and a second call within the 1-hour TTL returns
the identical stored outcome — whichever of the three variants it is —
invoking zero backends. -/
theorem resolve_cached_idempotent (env : Env) (domain : String)
    (t1 t2 : Int) (h1 : t1 ≤ t2) (h2 : t2 - t1 < 3600) :
    (resolve_cached env [] domain t1).1 = (resolve env domain).1 ∧
    (resolve_cached env [] domain t1).2.2 = (resolve env domain).2 ∧
    (resolve_cached env (resolve_cached env [] domain t1).2.1 domain t2).1 =
      (resolve_cached env [] domain t1).1 ∧
    (resolve_cached env (resolve_cached env [] domain t1).2.1 domain
        t2).2.2 = [] := by
  have h1st : resolve_cached env [] domain t1 =
      ((resolve env domain).1,
        [(py_lower domain, (resolve env domain).1, t1)],
        (resolve env domain).2) := rfl
  rw [h1st]
  have hget : cache_get [(py_lower domain, (resolve env domain).1, t1)]
      (py_lower domain) t2 = some (resolve env domain).1 := by
    simp [cache_get, List.find?, h2]
  simp [resolve_cached, hget]

/-- Witness for `resolve_cached_idempotent` in `envProto` at times 0 and
1800 seconds. -/
theorem resolve_cached_idempotent_witness :
    (resolve_cached envProto [] "example.com" 0).1 =
      (resolve envProto "example.com").1 ∧
    (resolve_cached envProto [] "example.com" 0).2.2 =
      (resolve envProto "example.com").2 ∧
    (resolve_cached envProto
        (resolve_cached envProto [] "example.com" 0).2.1 "example.com"
        1800).1 =
      (resolve_cached envProto [] "example.com" 0).1 ∧
    (resolve_cached envProto
        (resolve_cached envProto [] "example.com" 0).2.1 "example.com"
        1800).2.2 = [] :=
  resolve_cached_idempotent envProto "example.com" 0 1800
    (by decide) (by decide)

/-- C6: the cache key is the lowercase of the given domain and nothing
else: the first call stores its outcome under `py_lower d1`, and a second
call within the TTL with any `d2` of the same lowercasing returns that
stored outcome, invoking zero backends. -/
theorem cache_key_lowercase (env : Env) (d1 d2 : String) (t1 t2 : Int)
    (hcase : py_lower d2 = py_lower d1) (h2 : t2 - t1 < 3600) :
    (resolve_cached env [] d1 t1).2.1 =
      [(py_lower d1, (resolve env d1).1, t1)] ∧
    (resolve_cached env (resolve_cached env [] d1 t1).2.1 d2 t2).1 =
      (resolve_cached env [] d1 t1).1 ∧
    (resolve_cached env (resolve_cached env [] d1 t1).2.1 d2 t2).2.2
      = [] := by
  have h1st : resolve_cached env [] d1 t1 =
      ((resolve env d1).1, [(py_lower d1, (resolve env d1).1, t1)],
        (resolve env d1).2) := rfl
  rw [h1st]
  have hget : cache_get [(py_lower d1, (resolve env d1).1, t1)]
      (py_lower d2) t2 = some (resolve env d1).1 := by
    simp [cache_get, List.find?, hcase, h2]
  simp [resolve_cached, hget]

/-- Witness for `cache_key_lowercase` with `"EXAMPLE.com"` and
`"example.COM"` in `envProto` at times 0 and 60 seconds. -/
theorem cache_key_lowercase_witness :
    (resolve_cached envProto [] "EXAMPLE.com" 0).2.1 =
      [(py_lower "EXAMPLE.com", (resolve envProto "EXAMPLE.com").1, 0)] ∧
    (resolve_cached envProto
        (resolve_cached envProto [] "EXAMPLE.com" 0).2.1 "example.COM"
        60).1 =
      (resolve_cached envProto [] "EXAMPLE.com" 0).1 ∧
    (resolve_cached envProto
        (resolve_cached envProto [] "EXAMPLE.com" 0).2.1 "example.COM"
        60).2.2 = [] :=
  cache_key_lowercase envProto "EXAMPLE.com" "example.COM" 0 60
    (by decide) (by decide)

end DnsTwister
